import Mathlib

/-!
# Verification of the Amazon service module (`lutris/services/amazon.py`)

A shallow embedding of the authentication / library-synchronization core of
the Amazon service class, together with theorems settling the behavioural
claims about it.

Modelling conventions:
* JSON scalar values are `JVal`; Python falsiness and `int()` conversion are
  modelled explicitly.
* Python exceptions (`KeyError`, `ValueError`, `TypeError`) are modelled with
  `Except PyErr`.
* File and network side effects are modelled by explicit state passing plus an
  `Event` trace (one event per network call / file write / signal emission).
* The HTTP transport collaborator is an environment parameter: `none` models
  the `HTTPError` path (the helper catches it, logs, and returns `None`).
* `time.time()` is passed in as an integer `now` parameter.
-/

set_option autoImplicit false

/-- JSON scalar values as they appear in the persisted user document. -/
inductive JVal where
  | jnull
  | jnum (n : Int)
  | jstr (s : String)
  deriving DecidableEq, Repr

/-- Python exceptions that the modelled code can raise. -/
inductive PyErr where
  | keyError
  | valueError
  | typeError
  | indexError
  deriving DecidableEq, Repr

/-- Python falsiness (`not x`) on the scalar values we model:
`None`, `0` and `""` are falsy. -/
def JVal.falsy : JVal → Bool
  | .jnull => true
  | .jnum n => n == 0
  | .jstr s => s == ""

/-- Python `int(x)` on a scalar: identity on integers, decimal parse on
strings (`ValueError` on failure), `TypeError` on `None`. -/
def pyInt : JVal → Except PyErr Int
  | .jnum n => .ok n
  | .jstr s =>
    match s.toInt? with
    | some n => .ok n
    | none => .error .valueError
  | .jnull => .error .typeError

/-- Using a scalar as the left operand of `+` with an integer:
only numbers succeed, anything else is a `TypeError`. -/
def JVal.asNum : JVal → Except PyErr Int
  | .jnum n => .ok n
  | _ => .error .typeError

/-- Python `str(x)` on a scalar. -/
def pyStr : JVal → String
  | .jnull => "None"
  | .jnum n => toString n
  | .jstr s => s

/-- The `tokens.bearer` object of the persisted user document.
`access_token` and `refresh_token` are modelled as always-present values
(the registration endpoint always returns them); `expires_in` is kept
optional because the claims probe its absence (`none` = key absent). -/
structure Bearer where
  access_token : JVal
  refresh_token : JVal
  expires_in : Option JVal
  deriving DecidableEq, Repr

/-- The persisted `UserData` JSON document.
`token_obtain_time` is optional (`none` = key absent), matching the claims
that probe its absence.  `other` stands for every remaining field of the
document (e.g. `extensions.customer_info`, `tokens.mac_dms`), carried
opaquely so that frame conditions can be stated. -/
structure UserData where
  bearer : Bearer
  token_obtain_time : Option JVal
  device_serial_number : String
  other : List (String × JVal)
  deriving DecidableEq, Repr

/-- One opaque entitlement record from the sync endpoint.  The fields the
mapper reads (`id`, `product.title`) are exposed (`none` = key absent);
`raw` carries the rest of the record opaquely. -/
structure Ent where
  id : Option JVal
  title : Option String
  raw : List (String × JVal)
  deriving DecidableEq, Repr

/-- Success-response shape of the token-refresh endpoint
(`POST {api_host}/auth/token`): `{access_token, expires_in}`. -/
structure TokenResponse where
  access_token : JVal
  expires_in : JVal
  deriving DecidableEq, Repr

/-- Success-response shape of one page of the entitlement sync endpoint:
an `entitlements` array plus an optional `nextToken` continuation cursor
(`none` = the `nextToken` key is absent from the response). -/
structure SDSResponse where
  entitlements : List Ent
  nextToken : Option String
  deriving DecidableEq, Repr

/-- Observable side effects, in temporal order. -/
inductive Event where
  /-- `is_token_expired` read the stored document to test expiry. -/
  | expiryCheck
  /-- Network `POST` to the token-refresh endpoint, carrying the stored
  refresh token as `source_token`. -/
  | refreshCall (source_token : JVal)
  /-- The user document was rewritten with this content. -/
  | userWrite (u : UserData)
  /-- Network `POST` to the entitlement sync endpoint, carrying this
  `nextToken` in the request envelope. -/
  | sdsCall (tok : Option String)
  /-- The library cache file was rewritten with this array. -/
  | cacheWrite (games : List Ent)
  /-- Network `POST` to the device-registration endpoint with this
  authorization code. -/
  | registerCall (code : String)
  /-- The `service-login` completion signal was emitted. -/
  | emitLogin
  deriving DecidableEq, Repr

/-- The `sdsCall` events of a trace: the sync-endpoint network requests
made, each with the continuation token it carried. -/
def sdsCallsOf (evs : List Event) : List (Option String) :=
  evs.filterMap fun e =>
    match e with
    | .sdsCall t => some t
    | _ => none

/-- The `cacheWrite` events of a trace: the library-cache file writes. -/
def cacheWritesOf (evs : List Event) : List (List Ent) :=
  evs.filterMap fun e =>
    match e with
    | .cacheWrite g => some g
    | _ => none

/-- The `userWrite` events of a trace: the credential-file writes. -/
def userWritesOf (evs : List Event) : List UserData :=
  evs.filterMap fun e =>
    match e with
    | .userWrite u => some u
    | _ => none

/-- `AmazonService.is_token_expired`.  Reads `token_obtain_time` and
`tokens.bearer.expires_in` by subscription (an absent key raises
`KeyError`), returns `False` when either value is falsy, otherwise
compares `time.time() > token_obtain_time + int(expires_in)`. -/
def is_token_expired (now : Int) (u : UserData) : Except PyErr Bool :=
  match u.token_obtain_time with
  | none => .error .keyError
  | some t =>
    match u.bearer.expires_in with
    | none => .error .keyError
    | some e =>
      if t.falsy || e.falsy then .ok false
      else
        match pyInt e with
        | .error er => .error er
        | .ok ei =>
          match t.asNum with
          | .error er => .error er
          | .ok tn => .ok (decide (now > tn + ei))

/-- `AmazonService.refresh_token`.  Loads the stored document, posts the
stored refresh token to the token endpoint (`resp` is the transport
outcome; `none` models the caught `HTTPError` path, which returns with no
write).  On success it sets `access_token`, `expires_in` and
`token_obtain_time` on the loaded document and saves the whole document
back.  Returns the stored document after the call plus the event trace. -/
def refresh_token (now : Int) (u : UserData) (resp : Option TokenResponse) :
    UserData × List Event :=
  match resp with
  | none => (u, [.refreshCall u.bearer.refresh_token])
  | some r =>
    let u2 : UserData :=
      { u with
        bearer := { u.bearer with
          access_token := r.access_token
          expires_in := some r.expires_in }
        token_obtain_time := some (.jnum now) }
    (u2, [.refreshCall u.bearer.refresh_token, .userWrite u2])

/-- The mutable files `get_library` touches: the library cache file
(`none` = the file does not exist) and the credential file. -/
structure World where
  cache : Option (List Ent)
  user : UserData
  deriving Repr

/-- The external collaborators of one `get_library` run: the outcome the
token endpoint would produce, and the outcome of the `n`-th sync-endpoint
request (`none` models `request_sds` returning no data: a caught
`HTTPError`, or a falsy response body failing the `if not json_data`
test). -/
structure Env where
  tokenResp : Option TokenResponse
  sds : Nat → Option SDSResponse

/-- Outcome of the `while True` pagination loop in `get_library`. -/
inductive LoopOut where
  | fail
  | done (games : List Ent)
  deriving DecidableEq, Repr

/-- The `while True` pagination loop of `get_library`: request a page
(the `idx`-th call, carrying `tok` in the envelope), abort on no data,
extend the accumulator with the page's `entitlements`, stop when the
response has no `nextToken` key, else continue with the received token.
`fuel` bounds the number of iterations modelled; an exhausted-fuel result
of `none` means the run is longer than the bound (the source loop itself
has no bound). -/
def syncLoop (sds : Nat → Option SDSResponse) :
    Nat → Nat → Option String → List Ent → Option (LoopOut × List Event)
  | 0, _, _, _ => none
  | fuel + 1, idx, tok, acc =>
    match sds idx with
    | none => some (.fail, [.sdsCall tok])
    | some r =>
      let acc2 := acc ++ r.entitlements
      match r.nextToken with
      | none => some (.done acc2, [.sdsCall tok])
      | some t =>
        match syncLoop sds fuel (idx + 1) (some t) acc2 with
        | none => none
        | some (out, evs) => some (out, .sdsCall tok :: evs)

/-- `AmazonService.get_library`.  If the cache file exists, return its
parsed contents at once.  Otherwise check expiry (this can raise
`KeyError`, which propagates), refresh if expired, reload the user
document, and run the pagination loop; on loop failure return `None`
without writing, on success write the accumulated array to the cache file
and return it.  The result carries the Python return value, the final
file state, and the event trace; the outer `Option` is `none` only when
`fuel` under-approximates the loop length. -/
def get_library (now : Int) (w : World) (env : Env) (fuel : Nat) :
    Option (Except PyErr (Option (List Ent)) × World × List Event) :=
  match w.cache with
  | some l => some (.ok (some l), w, [])
  | none =>
    match is_token_expired now w.user with
    | .error e => some (.error e, w, [.expiryCheck])
    | .ok expired =>
      let ur := if expired then refresh_token now w.user env.tokenResp else (w.user, [])
      let w2 : World := { w with user := ur.1 }
      match syncLoop env.sds fuel 0 none [] with
      | none => none
      | some (.fail, evs) => some (.ok none, w2, .expiryCheck :: (ur.2 ++ evs))
      | some (.done gs, evs) =>
        some (.ok (some gs), { w2 with cache := some gs },
          .expiryCheck :: (ur.2 ++ (evs ++ [.cacheWrite gs])))

/-- Modelled from the spec: `lutris.util.strings.slugify` is an
out-of-scope name-normalization collaborator (§1 of the spec); no claim
inspects slug values, so it is modelled as a total function on strings. -/
def slugify (s : String) : String := s

/-- An `AmazonGame` record as built by `new_from_amazon_game`;
`details` stands for the JSON-serialized raw record. -/
structure AmazonGame where
  appid : String
  slug : String
  name : String
  details : Ent
  deriving DecidableEq, Repr

/-- `AmazonGame.new_from_amazon_game`: `appid` is `str(amazon_game["id"])`,
`slug`/`name` come from `amazon_game["product"]["title"]` (modelled as the
`title` field), `details` is the serialized record.  An absent `id` or
`product.title` raises `KeyError` (in that order). -/
def new_from_amazon_game (g : Ent) : Except PyErr AmazonGame :=
  match g.id with
  | none => .error .keyError
  | some i =>
    match g.title with
    | none => .error .keyError
    | some t => .ok { appid := pyStr i, slug := slugify t, name := t, details := g }

/-- The list comprehension in `load`: map every entitlement, propagating
the first exception. -/
def mapGames : List Ent → Except PyErr (List AmazonGame)
  | [] => .ok []
  | g :: gs => do
    let a ← new_from_amazon_game g
    let rest ← mapGames gs
    .ok (a :: rest)

/-- Result of one `load` call: the Python return value, the `is_loading`
flag after the call, the file state after the call, the event trace, and
the game records persisted by the `game.save()` loop. -/
structure LoadResult where
  games : Option (List AmazonGame)
  is_loading : Bool
  world : World
  events : List Event
  saved : List AmazonGame
  deriving Repr

/-- `AmazonService.load`.  If `is_loading` is set, log and return `None`
at once; if not authenticated, return `None`; otherwise set the flag, run
`get_library`, map each record and save each mapped game, converting any
exception raised while fetching or mapping into `games = None` via the
bare `except`, and clear the flag before returning.
`authenticated` models the `is_authenticated()` collaborator of the
out-of-scope base class.  The outer `Option` is fuel exhaustion of the
modelled pagination loop, as in `get_library`. -/
def load (is_loading authenticated : Bool) (now : Int) (w : World) (env : Env)
    (fuel : Nat) : Option LoadResult :=
  if is_loading then some ⟨none, is_loading, w, [], []⟩
  else if !authenticated then some ⟨none, is_loading, w, [], []⟩
  else
    match get_library now w env fuel with
    | none => none
    | some (res, w2, evs) =>
      match res with
      | .ok (some ents) =>
        match mapGames ents with
        | .ok gs => some ⟨some gs, false, w2, evs, gs⟩
        | .error _ => some ⟨none, false, w2, evs, []⟩
      | _ => some ⟨none, false, w2, evs, []⟩

/-- Helper for `pyFind`: index of the first suffix of the haystack that
the needle is a prefix of, counting from `i`; `-1` if none. -/
def pyFindAux (needle : List Char) : List Char → Int → Int
  | [], i => if needle.isPrefixOf [] then i else -1
  | c :: t, i => if needle.isPrefixOf (c :: t) then i else pyFindAux needle t (i + 1)

/-- Python `s.find(sub)`: smallest index of an occurrence, else `-1`. -/
def pyFind (s sub : String) : Int :=
  pyFindAux sub.toList s.toList 0

/-- The part of the list strictly after the first occurrence of `c`,
`none` if `c` does not occur. -/
def afterChar (c : Char) (l : List Char) : Option (List Char) :=
  match l.dropWhile (· ≠ c) with
  | [] => none
  | _ :: t => some t

/-- The `query` component that `urlparse` extracts: the part after the
first `?`, within the part before the first `#` (the fragment is split
off first); empty when there is no `?`. -/
def urlQuery (url : String) : String :=
  match afterChar '?' (url.toList.takeWhile (· ≠ '#')) with
  | none => ""
  | some q => String.mk q

/-- Value of a hexadecimal digit character. -/
def hexVal (c : Char) : Option Nat :=
  if '0' ≤ c ∧ c ≤ '9' then some (c.toNat - '0'.toNat)
  else if 'a' ≤ c ∧ c ≤ 'f' then some (c.toNat - 'a'.toNat + 10)
  else if 'A' ≤ c ∧ c ≤ 'F' then some (c.toNat - 'A'.toNat + 10)
  else none

/-- Percent-decoding as in `urllib.parse.unquote`: a `%` followed by two
hex digits becomes that byte; malformed escapes are kept verbatim. -/
def unquoteList : List Char → List Char
  | '%' :: a :: b :: rest =>
    match hexVal a, hexVal b with
    | some x, some y => Char.ofNat (16 * x + y) :: unquoteList rest
    | _, _ => '%' :: unquoteList (a :: b :: rest)
  | c :: rest => c :: unquoteList rest
  | [] => []

/-- `unquote` after replacing `+` by space, as `parse_qsl` applies to
names and values. -/
def unquotePlus (s : String) : String :=
  String.mk (unquoteList (s.toList.map fun c => if c = '+' then ' ' else c))

/-- Split a character list on `&`, as `qs.split("&")` does (an empty
input yields one empty token). -/
def splitOnAmp : List Char → List (List Char)
  | [] => [[]]
  | c :: t =>
    let r := splitOnAmp t
    if c = '&' then [] :: r
    else (c :: r.headD []) :: r.tail

/-- One `name=value` token of a query string, as `parse_qsl` treats it
with default options: skip an empty token, skip a token without `=`,
skip a token with an empty value, else decode name and value. -/
def parsePair (l : List Char) : Option (String × String) :=
  if l = [] then none
  else
    match afterChar '=' l with
    | none => none
    | some v =>
      if v = [] then none
      else some (unquotePlus (String.mk (l.takeWhile (· ≠ '='))),
                 unquotePlus (String.mk v))

/-- `urllib.parse.parse_qsl` with default options: split on `&`, keep the
decoded `name=value` pairs in order. -/
def parse_qsl (qs : String) : List (String × String) :=
  (splitOnAmp qs.toList).filterMap parsePair

/-- The list `parse_qs(qs)[key]` would give: all values bound to `key`,
in order.  The key is absent from the `parse_qs` dict iff this list is
empty (subscripting then raises `KeyError`). -/
def qsValues (qs key : String) : List String :=
  (parse_qsl qs).filterMap fun p => if p.1 = key then some p.2 else none

/-- The query-parameter name `login_callback` looks for. -/
def authCodeParam : String := "openid.oa2.authorization_code"

/-- `AmazonService.login_callback`.  If `url.find` places the parameter
name at a position `> 0`, parse the query of the URL and subscript the
`parse_qs` dict (raising `KeyError` when the name is not an actual query
parameter), then exchange the first value via `register_device`:
`transport` is the registration outcome (`none` models the caught
`HTTPError` path, where `register_device` returns no data and the
callback returns with no write and no signal).  On success the received
`response.success` document is stamped with `token_obtain_time = now`,
saved, and `service-login` is emitted.  If the substring test fails, the
callback does nothing. -/
def login_callback (now : Int) (url : String) (transport : Option UserData) :
    Except PyErr (List Event) :=
  if pyFind url authCodeParam > 0 then
    match qsValues (urlQuery url) authCodeParam with
    | [] => .error .keyError
    | code :: _ =>
      match transport with
      | none => .ok [.registerCall code]
      | some ud =>
        let ud2 : UserData := { ud with token_obtain_time := some (.jnum now) }
        .ok [.registerCall code, .userWrite ud2, .emitLogin]
  else .ok []

/-! ## SHA-256 and URL-safe base64 (models of `hashlib.sha256` and
`base64.urlsafe_b64encode`), used by `generate_challange`.
Bytes are `Nat`s below 256; words are `Nat`s below `2^32`. -/

/-- Truncation to a 32-bit word. -/
def w32 (n : Nat) : Nat := n % 4294967296

/-- 32-bit right rotation of a word `x < 2^32` by `n` (with `0 < n < 32`). -/
def rotr32 (x n : Nat) : Nat := w32 (x / 2 ^ n + x * 2 ^ (32 - n))

/-- FIPS 180-4 `Σ0`, the big sigma used on working variable `a`. -/
def sumA (x : Nat) : Nat := rotr32 x 2 ^^^ (rotr32 x 13 ^^^ rotr32 x 22)

/-- FIPS 180-4 `Σ1`, the big sigma used on working variable `e`. -/
def sumE (x : Nat) : Nat := rotr32 x 6 ^^^ (rotr32 x 11 ^^^ rotr32 x 25)

/-- FIPS 180-4 `σ0`, the small sigma of the message schedule. -/
def sigA (x : Nat) : Nat := rotr32 x 7 ^^^ (rotr32 x 18 ^^^ x / 2 ^ 3)

/-- FIPS 180-4 `σ1`, the small sigma of the message schedule. -/
def sigE (x : Nat) : Nat := rotr32 x 17 ^^^ (rotr32 x 19 ^^^ x / 2 ^ 10)

/-- The 64 SHA-256 round constants of FIPS 180-4 §4.2.2 (decimal). -/
def sha256K : List Nat :=
  [1116352408, 1899447441, 3049323471, 3921009573, 961987163,
   1508970993, 2453635748, 2870763221, 3624381080, 310598401,
   607225278, 1426881987, 1925078388, 2162078206, 2614888103,
   3248222580, 3835390401, 4022224774, 264347078, 604807628,
   770255983, 1249150122, 1555081692, 1996064986, 2554220882,
   2821834349, 2952996808, 3210313671, 3336571891, 3584528711,
   113926993, 338241895, 666307205, 773529912, 1294757372,
   1396182291, 1695183700, 1986661051, 2177026350, 2456956037,
   2730485921, 2820302411, 3259730800, 3345764771, 3516065817,
   3600352804, 4094571909, 275423344, 430227734, 506948616,
   659060556, 883997877, 958139571, 1322822218, 1537002063,
   1747873779, 1955562222, 2024104815, 2227730452, 2361852424,
   2428436474, 2756734187, 3204031479, 3329325298]

/-- The SHA-256 initial hash value of FIPS 180-4 §5.3.3 (decimal). -/
def sha256H0 : List Nat :=
  [1779033703, 3144134277, 1013904242, 2773480762,
   1359893119, 2600822924, 528734635, 1541459225]

/-- Big-endian byte expansion of `n` into `k` bytes. -/
def toBytesBE : Nat → Nat → List Nat
  | 0, _ => []
  | k + 1, n => toBytesBE k (n / 256) ++ [n % 256]

/-- Group bytes into big-endian 32-bit words (dropping a ragged tail,
which never occurs on the 64-byte chunks this is applied to). -/
def words32 : List Nat → List Nat
  | b0 :: b1 :: b2 :: b3 :: rest =>
    (((b0 * 256 + b1) * 256 + b2) * 256 + b3) :: words32 rest
  | _ => []

/-- SHA-256 message padding: append `0x80`, zero bytes to 56 mod 64, and
the 8-byte big-endian bit length. -/
def sha256pad (m : List Nat) : List Nat :=
  m ++ (0x80 :: List.replicate ((119 - m.length % 64) % 64) 0)
    ++ toBytesBE 8 (8 * m.length)

/-- Message-schedule extension: append `k` further words, each computed
from the words 16, 15, 7 and 2 positions back. -/
def extendW : Nat → List Nat → List Nat
  | 0, ws => ws
  | k + 1, ws =>
    let n := ws.length
    extendW k (ws ++ [w32 (ws.getD (n - 16) 0 + sigA (ws.getD (n - 15) 0)
      + ws.getD (n - 7) 0 + sigE (ws.getD (n - 2) 0))])

/-- The eight SHA-256 working variables. -/
structure Hash8 where
  a : Nat
  b : Nat
  c : Nat
  d : Nat
  e : Nat
  f : Nat
  g : Nat
  h : Nat
  deriving DecidableEq, Repr

/-- One SHA-256 compression round, consuming a `(K, W)` pair. -/
def sha256Round (s : Hash8) (kw : Nat × Nat) : Hash8 :=
  let ch := (s.e &&& s.f) ^^^ ((s.e ^^^ 0xffffffff) &&& s.g)
  let maj := (s.a &&& s.b) ^^^ (s.a &&& s.c) ^^^ (s.b &&& s.c)
  let t1 := w32 (s.h + sumE s.e + ch + kw.1 + kw.2)
  let t2 := w32 (sumA s.a + maj)
  { a := w32 (t1 + t2), b := s.a, c := s.b, d := s.c,
    e := w32 (s.d + t1), f := s.e, g := s.f, h := s.g }

/-- Compress one 64-byte chunk into the running hash value. -/
def sha256Chunk (hv : List Nat) (chunk : List Nat) : List Nat :=
  let ws := extendW 48 (words32 chunk)
  let s0 : Hash8 :=
    { a := hv.getD 0 0, b := hv.getD 1 0, c := hv.getD 2 0, d := hv.getD 3 0,
      e := hv.getD 4 0, f := hv.getD 5 0, g := hv.getD 6 0, h := hv.getD 7 0 }
  let s := (sha256K.zip ws).foldl sha256Round s0
  [w32 (hv.getD 0 0 + s.a), w32 (hv.getD 1 0 + s.b),
   w32 (hv.getD 2 0 + s.c), w32 (hv.getD 3 0 + s.d),
   w32 (hv.getD 4 0 + s.e), w32 (hv.getD 5 0 + s.f),
   w32 (hv.getD 6 0 + s.g), w32 (hv.getD 7 0 + s.h)]

/-- Split into 64-byte chunks (structural recursion on a step bound that
the wrapper instantiates large enough to consume the whole list). -/
def chunks64Go : Nat → List Nat → List (List Nat)
  | 0, _ => []
  | n + 1, l => if l = [] then [] else l.take 64 :: chunks64Go n (l.drop 64)

/-- Split into 64-byte chunks. -/
def chunks64 (l : List Nat) : List (List Nat) :=
  chunks64Go l.length l

/-- `hashlib.sha256(...).digest()`: the 32-byte SHA-256 digest. -/
def sha256 (msg : List Nat) : List Nat :=
  ((chunks64 (sha256pad msg)).foldl sha256Chunk sha256H0).foldr
    (fun word acc => toBytesBE 4 word ++ acc) []

/-- The URL-safe base64 alphabet of RFC 4648. -/
def b64urlAlphabet : String :=
  "ABCDEFGHIJKLMNOPQRSTUVWXYZabcdefghijklmnopqrstuvwxyz0123456789-_"

/-- The `n`-th character of the URL-safe base64 alphabet. -/
def b64char (n : Nat) : Char := b64urlAlphabet.toList.getD n 'A'

/-- `base64.urlsafe_b64encode`: encode 3-byte groups into 4 characters,
padding a short final group with `=`. -/
def b64urlEncode : List Nat → List Char
  | b0 :: b1 :: b2 :: rest =>
    let n := (b0 * 256 + b1) * 256 + b2
    b64char (n / 262144) :: b64char (n / 4096 % 64) :: b64char (n / 64 % 64)
      :: b64char (n % 64) :: b64urlEncode rest
  | [b0, b1] =>
    let n := (b0 * 256 + b1) * 4
    [b64char (n / 4096), b64char (n / 64 % 64), b64char (n % 64), '=']
  | [b0] =>
    let n := b0 * 16
    [b64char (n / 64), b64char (n % 64), '=', '=']
  | [] => []

/-- Python `bytes.rstrip(b"=")`: drop every trailing `=`. -/
def rstripEq (l : List Char) : List Char :=
  (l.reverse.dropWhile (· = '=')).reverse

/-- `AmazonService.generate_challange`: SHA-256 of the verifier bytes,
URL-safe base64 encoded, with the trailing `=` padding stripped.  It is a
pure function of the verifier (its only side effect in the source is a
log line), so determinism is immediate from this model. -/
def generate_challange (code_verifier : List Nat) : List Char :=
  rstripEq (b64urlEncode (sha256 code_verifier))

/-- Modelled from the spec: `base64url_nopad`, the spec-side encoding
(§8: `challenge = base64url_nopad(sha256(verifier))`). -/
def base64url_nopad (bs : List Nat) : List Char :=
  rstripEq (b64urlEncode bs)

/-! ## Theorems -/

/-- Sanity check pinning the `sha256` model to the NIST test vector for
the empty message. -/
theorem sha256_empty_vector :
    sha256 [] = [0xe3, 0xb0, 0xc4, 0x42, 0x98, 0xfc, 0x1c, 0x14,
                 0x9a, 0xfb, 0xf4, 0xc8, 0x99, 0x6f, 0xb9, 0x24,
                 0x27, 0xae, 0x41, 0xe4, 0x64, 0x9b, 0x93, 0x4c,
                 0xa4, 0x95, 0x99, 0x1b, 0x78, 0x52, 0xb8, 0x55] := by
  decide

/-- Sanity check pinning the `sha256` model to the NIST test vector for
the message `"abc"`. -/
theorem sha256_abc_vector :
    sha256 [0x61, 0x62, 0x63] =
      [0xba, 0x78, 0x16, 0xbf, 0x8f, 0x01, 0xcf, 0xea,
       0x41, 0x41, 0x40, 0xde, 0x5d, 0xae, 0x22, 0x23,
       0xb0, 0x03, 0x61, 0xa3, 0x96, 0x17, 0x7a, 0x9c,
       0xb4, 0x10, 0xff, 0x61, 0xf2, 0x00, 0x15, 0xad] := by
  decide

/-- A user document whose `token_obtain_time` key is absent (everything
else present and well-formed). -/
def c1user : UserData :=
  { bearer := { access_token := .jstr "a", refresh_token := .jstr "r",
                expires_in := some (.jnum 3600) },
    token_obtain_time := none,
    device_serial_number := "S",
    other := [] }

/-- C1 (counterexample): on a stored document whose `token_obtain_time`
key is absent, `is_token_expired` raises `KeyError` — it does not return
false, contradicting the claim that absence of the field yields "not
expired" without failing. -/
theorem amazon_c1_counterexample :
    is_token_expired 100 c1user = .error .keyError ∧
    ¬ is_token_expired 100 c1user = .ok false :=
  ⟨rfl, fun h => Except.noConfusion h⟩

/-- C1 (amended): the fail-open branch of `is_token_expired` covers
present-but-falsy fields, not absent ones: when both keys are present and
either value is falsy (`null`, `0`, or the empty string), it returns
false; when `token_obtain_time` is absent, or when it is present but
`tokens.bearer.expires_in` is absent, it raises `KeyError` instead. -/
theorem amazon_c1_fail_open (now : Int) (u : UserData) :
    (∀ t e, u.token_obtain_time = some t → u.bearer.expires_in = some e →
      (t.falsy || e.falsy) = true → is_token_expired now u = .ok false)
  ∧ (u.token_obtain_time = none → is_token_expired now u = .error .keyError)
  ∧ (∀ t, u.token_obtain_time = some t → u.bearer.expires_in = none →
      is_token_expired now u = .error .keyError) := by
  refine ⟨?_, ?_, ?_⟩
  · intro t e ht he hf
    simp [is_token_expired, ht, he, hf]
  · intro h
    simp [is_token_expired, h]
  · intro t ht he
    simp [is_token_expired, ht, he]

/-- Witness for C1 (amended): a document whose `token_obtain_time` is
present but `0` (falsy) is reported as not expired. -/
theorem amazon_c1_witness :
    is_token_expired 100
      { bearer := { access_token := .jstr "a", refresh_token := .jstr "r",
                    expires_in := some (.jnum 3600) },
        token_obtain_time := some (.jnum 0),
        device_serial_number := "S",
        other := [] } = .ok false :=
  (amazon_c1_fail_open 100 _).1 (.jnum 0) (.jnum 3600) rfl rfl (by decide)

/-- C8: when both `token_obtain_time` and `tokens.bearer.expires_in` are
present with truthy values (of the numeric kinds the protocol stores
there), `is_token_expired` returns true iff `now > token_obtain_time +
int(expires_in)`; at the exact boundary the token is not expired. -/
theorem amazon_c8_expiry_boundary (now tn ei : Int) (u : UserData) (t e : JVal)
    (ht : u.token_obtain_time = some t) (he : u.bearer.expires_in = some e)
    (htt : t.falsy = false) (het : e.falsy = false)
    (hconv : pyInt e = .ok ei) (hnum : t.asNum = .ok tn) :
    (is_token_expired now u = .ok true ↔ now > tn + ei)
  ∧ (now = tn + ei → is_token_expired now u = .ok false) := by
  constructor
  · simp [is_token_expired, ht, he, htt, het, hconv, hnum]
  · intro hb
    simp [is_token_expired, ht, he, htt, het, hconv, hnum]
    omega

/-- Witness for C8: obtained at time `10` for `5` seconds and queried at
the exact boundary `now = 15`, the token is not expired. -/
theorem amazon_c8_witness :
    is_token_expired 15
      { bearer := { access_token := .jstr "a", refresh_token := .jstr "r",
                    expires_in := some (.jnum 5) },
        token_obtain_time := some (.jnum 10),
        device_serial_number := "S",
        other := [] } = .ok false :=
  (amazon_c8_expiry_boundary 15 10 5 _ (.jnum 10) (.jnum 5)
    rfl rfl (by decide) (by decide) rfl rfl).2 rfl

/-- C9: `generate_challange` computes exactly the spec-side formula
`base64url_nopad(sha256(verifier))` for every verifier byte string.  Both
sides are pure Lean functions (the source function's only side effect is
a log line), so determinism — equal challenges for equal verifiers — is
immediate. -/
theorem amazon_c9_challenge (v : List Nat) :
    generate_challange v = base64url_nopad (sha256 v) := rfl

/-- C6: a successful `refresh_token` stores a document that differs from
the loaded one exactly in `access_token`, `expires_in` and
`token_obtain_time` (set to now); `refresh_token` itself and every other
field are unchanged, and the new document is the one written.  On
transport failure the function returns normally (it is total) with the
stored document untouched and no credential-file write. -/
theorem amazon_c6_refresh_frame (now : Int) (u : UserData) (r : TokenResponse) :
    ((refresh_token now u (some r)).1.bearer.access_token = r.access_token
      ∧ (refresh_token now u (some r)).1.bearer.expires_in = some r.expires_in
      ∧ (refresh_token now u (some r)).1.token_obtain_time = some (.jnum now)
      ∧ (refresh_token now u (some r)).1.bearer.refresh_token = u.bearer.refresh_token
      ∧ (refresh_token now u (some r)).1.device_serial_number = u.device_serial_number
      ∧ (refresh_token now u (some r)).1.other = u.other
      ∧ userWritesOf (refresh_token now u (some r)).2 = [(refresh_token now u (some r)).1])
  ∧ ((refresh_token now u none).1 = u
      ∧ userWritesOf (refresh_token now u none).2 = []) := by
  refine ⟨⟨rfl, rfl, rfl, rfl, rfl, rfl, ?_⟩, rfl, ?_⟩ <;>
    simp [refresh_token, userWritesOf]

@[simp] theorem sdsCallsOf_nil : sdsCallsOf [] = [] := rfl

@[simp] theorem sdsCallsOf_expiry (evs : List Event) :
    sdsCallsOf (.expiryCheck :: evs) = sdsCallsOf evs := rfl

@[simp] theorem sdsCallsOf_refresh (s : JVal) (evs : List Event) :
    sdsCallsOf (.refreshCall s :: evs) = sdsCallsOf evs := rfl

@[simp] theorem sdsCallsOf_userWrite (u : UserData) (evs : List Event) :
    sdsCallsOf (.userWrite u :: evs) = sdsCallsOf evs := rfl

@[simp] theorem sdsCallsOf_sds (t : Option String) (evs : List Event) :
    sdsCallsOf (.sdsCall t :: evs) = t :: sdsCallsOf evs := rfl

@[simp] theorem sdsCallsOf_cacheWrite (g : List Ent) (evs : List Event) :
    sdsCallsOf (.cacheWrite g :: evs) = sdsCallsOf evs := rfl

@[simp] theorem sdsCallsOf_append (a b : List Event) :
    sdsCallsOf (a ++ b) = sdsCallsOf a ++ sdsCallsOf b := by
  simp [sdsCallsOf]

@[simp] theorem cacheWritesOf_nil : cacheWritesOf [] = [] := rfl

@[simp] theorem cacheWritesOf_expiry (evs : List Event) :
    cacheWritesOf (.expiryCheck :: evs) = cacheWritesOf evs := rfl

@[simp] theorem cacheWritesOf_refresh (s : JVal) (evs : List Event) :
    cacheWritesOf (.refreshCall s :: evs) = cacheWritesOf evs := rfl

@[simp] theorem cacheWritesOf_userWrite (u : UserData) (evs : List Event) :
    cacheWritesOf (.userWrite u :: evs) = cacheWritesOf evs := rfl

@[simp] theorem cacheWritesOf_sds (t : Option String) (evs : List Event) :
    cacheWritesOf (.sdsCall t :: evs) = cacheWritesOf evs := rfl

@[simp] theorem cacheWritesOf_cacheWrite (g : List Ent) (evs : List Event) :
    cacheWritesOf (.cacheWrite g :: evs) = g :: cacheWritesOf evs := rfl

@[simp] theorem cacheWritesOf_append (a b : List Event) :
    cacheWritesOf (a ++ b) = cacheWritesOf a ++ cacheWritesOf b := by
  simp [cacheWritesOf]

/-- A token refresh performs no sync-endpoint call and no cache write,
whatever the transport outcome. -/
theorem refresh_token_trace (now : Int) (u : UserData) (r : Option TokenResponse) :
    sdsCallsOf (refresh_token now u r).2 = []
  ∧ cacheWritesOf (refresh_token now u r).2 = [] := by
  cases r <;> simp [refresh_token]

/-- When the cache file exists, `get_library` returns its contents with
no state change and an empty event trace. -/
theorem get_library_cache_hit (now : Int) (w : World) (env : Env) (fuel : Nat)
    (l : List Ent) (h : w.cache = some l) :
    get_library now w env fuel = some (.ok (some l), w, []) := by
  simp [get_library, h]

/-- C4: when the library cache file exists, `get_library` returns its
parsed contents unchanged with an empty event trace — in particular no
sync-endpoint call, no expiry check, no token refresh, and no file write
— whatever the token state (`w.user`), the environment, and the fuel. -/
theorem amazon_c4_cache_short_circuit (now : Int) (w : World) (env : Env)
    (fuel : Nat) (l : List Ent) (h : w.cache = some l) :
    get_library now w env fuel = some (.ok (some l), w, []) := by
  simp [get_library, h]

/-- A cached world and an environment used by the C4 witness. -/
def c4world : World :=
  { cache := some [{ id := some (.jnum 1), title := some "G", raw := [] }],
    user := { bearer := { access_token := .jstr "x", refresh_token := .jstr "y",
                          expires_in := none },
              token_obtain_time := none,
              device_serial_number := "S",
              other := [] } }

/-- Environment whose every transport interaction fails. -/
def c4env : Env := { tokenResp := none, sds := fun _ => none }

/-- Witness for C4: with the cache present, even a completely broken
token state (absent expiry fields) and a dead transport, the cached list
comes back with an empty trace. -/
theorem amazon_c4_witness :
    get_library 0 c4world c4env 0
      = some (.ok (some [{ id := some (.jnum 1), title := some "G", raw := [] }]),
              c4world, []) :=
  amazon_c4_cache_short_circuit 0 c4world c4env 0 _ rfl

/-- When every page succeeds — the pages described by `pages` each carry
a `nextToken`, the page after them carries none — the pagination loop
accumulates all entitlement arrays in page order onto the accumulator and
requests exactly one page per response, threading each received token
into the next request. -/
theorem syncLoop_success (sds : Nat → Option SDSResponse) :
    ∀ (pages : List (List Ent × String)) (final : List Ent)
      (fuel idx : Nat) (tok : Option String) (acc : List Ent),
      (∀ i, i < pages.length →
        sds (idx + i) = some ⟨(pages.getD i ([], "")).1,
                              some (pages.getD i ([], "")).2⟩) →
      sds (idx + pages.length) = some ⟨final, none⟩ →
      pages.length < fuel →
      syncLoop sds fuel idx tok acc
        = some (.done (acc ++ ((pages.map Prod.fst).flatten ++ final)),
                .sdsCall tok :: pages.map (fun p => .sdsCall (some p.2))) := by
  intro pages
  induction pages with
  | nil =>
    intro final fuel idx tok acc _ hfin hlt
    obtain ⟨f, rfl⟩ : ∃ f, fuel = f + 1 := ⟨fuel - 1, by omega⟩
    have h0 : sds idx = some ⟨final, none⟩ := by simpa using hfin
    simp [syncLoop, h0]
  | cons p ps ih =>
    intro final fuel idx tok acc hpre hfin hlt
    obtain ⟨f, rfl⟩ : ∃ f, fuel = f + 1 := ⟨fuel - 1, by omega⟩
    have h0 : sds idx = some ⟨p.1, some p.2⟩ := by
      have := hpre 0 (by simp)
      simpa using this
    have hrec := ih final f (idx + 1) (some p.2) (acc ++ p.1)
      (fun i hi => by
        have := hpre (i + 1) (by simpa using hi)
        simpa [show idx + 1 + i = idx + (i + 1) by omega] using this)
      (by
        have : idx + 1 + ps.length = idx + (p :: ps).length := by simp; omega
        rw [this]
        exact hfin)
      (by simp at hlt; omega)
    simp [syncLoop, h0, hrec]

/-- C2: with no cache file and every page request succeeding, however
many pages the server serves (`nextToken` present on every page but the
last), `get_library` requests exactly one page per response — another
page iff the previous response contained a `nextToken` key, threading
each received token into the next request — accumulates the pages'
entitlement arrays in page order into one combined list, writes exactly
that combined list to the cache file (a single write), and returns it. -/
theorem amazon_c2_pagination (now : Int) (w : World) (env : Env) (fuel : Nat)
    (b : Bool) (pages : List (List Ent × String)) (final : List Ent)
    (hc : w.cache = none) (hexp : is_token_expired now w.user = .ok b)
    (hpre : ∀ i, i < pages.length →
      env.sds i = some ⟨(pages.getD i ([], "")).1,
                        some (pages.getD i ([], "")).2⟩)
    (hfin : env.sds pages.length = some ⟨final, none⟩)
    (hf : pages.length < fuel) :
    (get_library now w env fuel).map (fun r => r.1)
        = some (.ok (some ((pages.map Prod.fst).flatten ++ final)))
  ∧ (get_library now w env fuel).map (fun r => r.2.1.cache)
        = some (some ((pages.map Prod.fst).flatten ++ final))
  ∧ (get_library now w env fuel).map (fun r => sdsCallsOf r.2.2)
        = some (none :: pages.map (fun p => some p.2))
  ∧ (get_library now w env fuel).map (fun r => cacheWritesOf r.2.2)
        = some [(pages.map Prod.fst).flatten ++ final] := by
  have s0 : syncLoop env.sds fuel 0 none []
      = some (.done ((pages.map Prod.fst).flatten ++ final),
              .sdsCall none :: pages.map (fun p => .sdsCall (some p.2))) := by
    have := syncLoop_success env.sds pages final fuel 0 none []
      (by simpa using hpre) (by simpa using hfin) hf
    simpa using this
  have hrt := refresh_token_trace now w.user env.tokenResp
  have htrace : ∀ l : List (List Ent × String),
      sdsCallsOf (l.map (fun p => .sdsCall (some p.2)))
          = l.map (fun p => some p.2)
    ∧ cacheWritesOf (l.map (fun p => .sdsCall (some p.2))) = [] := by
    intro l
    induction l with
    | nil => exact ⟨rfl, rfl⟩
    | cons x xs ih => simp [ih.1, ih.2]
  cases b <;>
    simp [get_library, hc, hexp, s0, hrt.1, hrt.2,
      (htrace pages).1, (htrace pages).2]

/-- A user document with a valid, unexpired token window at time `5`. -/
def c2user : UserData :=
  { bearer := { access_token := .jstr "AT", refresh_token := .jstr "RT",
                expires_in := some (.jnum 3600) },
    token_obtain_time := some (.jnum 1),
    device_serial_number := "S",
    other := [] }

/-- Entitlement records used by the C2 witness. -/
def c2e1 : Ent := { id := some (.jnum 1), title := some "A", raw := [] }

def c2e2 : Ent := { id := some (.jnum 2), title := some "B", raw := [] }

def c2e3 : Ent := { id := some (.jnum 3), title := some "C", raw := [] }

/-- A three-page environment for the C2 witness: tokens `T1`, `T2`, then
a final page without `nextToken`. -/
def c2env : Env :=
  { tokenResp := none,
    sds := fun n =>
      if n = 0 then some ⟨[c2e1], some "T1"⟩
      else if n = 1 then some ⟨[c2e2], some "T2"⟩
      else if n = 2 then some ⟨[c2e3], none⟩
      else none }

/-- Witness for C2 on a concrete three-page fetch (`nextToken` on pages
1 and 2, absent on page 3). -/
theorem amazon_c2_witness :
    (get_library 5 ⟨none, c2user⟩ c2env 3).map (fun r => r.1)
        = some (.ok (some
            (([([c2e1], "T1"), ([c2e2], "T2")].map Prod.fst).flatten ++ [c2e3])))
  ∧ (get_library 5 ⟨none, c2user⟩ c2env 3).map (fun r => r.2.1.cache)
        = some (some
            (([([c2e1], "T1"), ([c2e2], "T2")].map Prod.fst).flatten ++ [c2e3]))
  ∧ (get_library 5 ⟨none, c2user⟩ c2env 3).map (fun r => sdsCallsOf r.2.2)
        = some (none :: [([c2e1], "T1"), ([c2e2], "T2")].map (fun p => some p.2))
  ∧ (get_library 5 ⟨none, c2user⟩ c2env 3).map (fun r => cacheWritesOf r.2.2)
        = some [([([c2e1], "T1"), ([c2e2], "T2")].map Prod.fst).flatten ++ [c2e3]] :=
  amazon_c2_pagination 5 ⟨none, c2user⟩ c2env 3 false
    [([c2e1], "T1"), ([c2e2], "T2")] [c2e3] rfl rfl
    (by
      intro i hi
      rcases i with _ | _ | n
      · rfl
      · rfl
      · simp only [List.length_cons, List.length_nil] at hi
        omega)
    rfl (by decide)

/-- If page `k` is the first page on which the transport yields no data
(every earlier page succeeded and carried a `nextToken`), the pagination
loop fails, and its trace contains no cache write. -/
theorem syncLoop_first_failure (sds : Nat → Option SDSResponse) :
    ∀ (k fuel idx : Nat) (tok : Option String) (acc : List Ent),
      (∀ i, i < k → ∃ r, sds (idx + i) = some r ∧ r.nextToken.isSome) →
      sds (idx + k) = none → k < fuel →
      ∃ evs, syncLoop sds fuel idx tok acc = some (.fail, evs)
        ∧ cacheWritesOf evs = [] := by
  intro k
  induction k with
  | zero =>
    intro fuel idx tok acc _ hfail hk
    obtain ⟨f, rfl⟩ : ∃ f, fuel = f + 1 := ⟨fuel - 1, by omega⟩
    have h0 : sds idx = none := by simpa using hfail
    exact ⟨[.sdsCall tok], by simp [syncLoop, h0], rfl⟩
  | succ n ih =>
    intro fuel idx tok acc hpre hfail hk
    obtain ⟨f, rfl⟩ : ∃ f, fuel = f + 1 := ⟨fuel - 1, by omega⟩
    obtain ⟨r, hr, hnt⟩ := hpre 0 (by omega)
    rw [Nat.add_zero] at hr
    obtain ⟨t, ht⟩ := Option.isSome_iff_exists.mp hnt
    obtain ⟨evs, hloop, hcw⟩ := ih f (idx + 1) (some t) (acc ++ r.entitlements)
      (fun i hi => by
        obtain ⟨r2, hr2, hnt2⟩ := hpre (i + 1) (by omega)
        exact ⟨r2, by rwa [show idx + 1 + i = idx + (i + 1) by omega], hnt2⟩)
      (by rwa [show idx + 1 + n = idx + (n + 1) by omega])
      (by omega)
    exact ⟨.sdsCall tok :: evs, by simp [syncLoop, hr, ht, hloop],
      by simpa using hcw⟩

/-- C3: when some page's transport request yields no data (pages before
it succeeded, each carrying a `nextToken`), `get_library` returns `None`:
the cache file stays absent, no cache write happens, and the entitlements
of the earlier pages are discarded rather than returned. -/
theorem amazon_c3_transport_abort (now : Int) (w : World) (env : Env)
    (fuel k : Nat) (b : Bool)
    (hc : w.cache = none) (hexp : is_token_expired now w.user = .ok b)
    (hpre : ∀ i, i < k → ∃ r, env.sds i = some r ∧ r.nextToken.isSome)
    (hfail : env.sds k = none) (hk : k < fuel) :
    (get_library now w env fuel).map (fun r => r.1) = some (.ok none)
  ∧ (get_library now w env fuel).map (fun r => r.2.1.cache) = some none
  ∧ (get_library now w env fuel).map (fun r => cacheWritesOf r.2.2) = some [] := by
  obtain ⟨evs, hloop, hcw⟩ := syncLoop_first_failure env.sds k fuel 0 none []
    (by simpa using hpre) (by simpa using hfail) hk
  have hrt := refresh_token_trace now w.user env.tokenResp
  cases b <;> simp [get_library, hc, hexp, hloop, hcw, hrt.2]

/-- An environment for the C3 witness: page 1 succeeds with a
continuation token, page 2's request fails. -/
def c3env : Env :=
  { tokenResp := none,
    sds := fun n => if n = 0 then some ⟨[c2e1], some "T1"⟩ else none }

/-- Witness for C3: a failure on page 2 of a fetch whose page 1
succeeded discards page-1 data, returns `None`, and writes nothing. -/
theorem amazon_c3_witness :
    (get_library 5 ⟨none, c2user⟩ c3env 2).map (fun r => r.1) = some (.ok none)
  ∧ (get_library 5 ⟨none, c2user⟩ c3env 2).map (fun r => r.2.1.cache) = some none
  ∧ (get_library 5 ⟨none, c2user⟩ c3env 2).map (fun r => cacheWritesOf r.2.2)
        = some [] :=
  amazon_c3_transport_abort 5 ⟨none, c2user⟩ c3env 2 1 false rfl rfl
    (by
      intro i hi
      have hz : i = 0 := by omega
      subst hz
      exact ⟨⟨[c2e1], some "T1"⟩, rfl, rfl⟩)
    rfl (by decide)

/-- C10: with no cache file and a single successful page carrying an
empty `entitlements` array and no `nextToken`, `get_library` writes the
empty array to the cache file and returns the empty list; and every
subsequent `get_library` call — at any time, against any environment —
returns that cached empty list with an empty event trace (no network
call), as long as the cache file persists. -/
theorem amazon_c10_empty_sync_cached (now : Int) (w : World) (env : Env)
    (fuel : Nat) (b : Bool) (hc : w.cache = none)
    (hexp : is_token_expired now w.user = .ok b)
    (h0 : env.sds 0 = some ⟨[], none⟩) (hf : 1 ≤ fuel) :
    (get_library now w env fuel).map (fun r => r.1) = some (.ok (some []))
  ∧ (get_library now w env fuel).map (fun r => r.2.1.cache) = some (some [])
  ∧ (get_library now w env fuel).map (fun r => cacheWritesOf r.2.2) = some [[]]
  ∧ (∀ r, get_library now w env fuel = some r →
      ∀ (now2 : Int) (env2 : Env) (fuel2 : Nat),
        get_library now2 r.2.1 env2 fuel2 = some (.ok (some []), r.2.1, [])) := by
  obtain ⟨f, rfl⟩ : ∃ f, fuel = f + 1 := ⟨fuel - 1, by omega⟩
  have s0 : syncLoop env.sds (f + 1) 0 none [] = some (.done [], [.sdsCall none]) := by
    simp [syncLoop, h0]
  have hrt := refresh_token_trace now w.user env.tokenResp
  have main :
      (get_library now w env (f + 1)).map (fun r => r.1) = some (.ok (some []))
    ∧ (get_library now w env (f + 1)).map (fun r => r.2.1.cache) = some (some [])
    ∧ (get_library now w env (f + 1)).map (fun r => cacheWritesOf r.2.2)
          = some [[]] := by
    cases b <;> simp [get_library, hc, hexp, s0, hrt.1, hrt.2]
  refine ⟨main.1, main.2.1, main.2.2, ?_⟩
  intro r hr now2 env2 fuel2
  have h2 := main.2.1
  rw [hr] at h2
  simp at h2
  exact get_library_cache_hit now2 r.2.1 env2 fuel2 [] h2

/-- An environment for the C10 witness: one successful empty page. -/
def c10env : Env :=
  { tokenResp := none,
    sds := fun n => if n = 0 then some ⟨[], none⟩ else none }

/-- Witness for C10: an empty-but-successful sync is cached. -/
theorem amazon_c10_witness :
    (get_library 5 ⟨none, c2user⟩ c10env 1).map (fun r => r.1)
        = some (.ok (some []))
  ∧ (get_library 5 ⟨none, c2user⟩ c10env 1).map (fun r => r.2.1.cache)
        = some (some [])
  ∧ (get_library 5 ⟨none, c2user⟩ c10env 1).map (fun r => cacheWritesOf r.2.2)
        = some [[]]
  ∧ (∀ r, get_library 5 ⟨none, c2user⟩ c10env 1 = some r →
      ∀ (now2 : Int) (env2 : Env) (fuel2 : Nat),
        get_library now2 r.2.1 env2 fuel2 = some (.ok (some []), r.2.1, [])) :=
  amazon_c10_empty_sync_cached 5 ⟨none, c2user⟩ c10env 1 false rfl rfl rfl
    (by decide)

/-- A redirect URL in which the parameter name occurs only as a query
*value*: the `openid.oa2.authorization_code` query parameter is absent. -/
def c5url : String := "https://www.amazon.com/?x=openid.oa2.authorization_code"

/-- C5 (counterexample): on a redirect URL whose query string does not
contain the `openid.oa2.authorization_code` parameter (it appears only as
the value of another parameter), `login_callback` does not silently do
nothing — the substring test passes, the `parse_qs` dict is subscripted,
and a `KeyError` is raised. -/
theorem amazon_c5_counterexample :
    qsValues (urlQuery c5url) authCodeParam = []
  ∧ login_callback 0 c5url none = .error .keyError
  ∧ ¬ login_callback 0 c5url none = .ok [] :=
  ⟨rfl, rfl, fun h => Except.noConfusion h⟩

/-- C5 (amended): the trigger is the substring test, not parameter
presence.  When `url.find("openid.oa2.authorization_code") ≤ 0` the
callback silently does nothing (no network call, no write, no signal, no
error).  When the substring occurs at a position `> 0` and the query
string really carries the parameter, its first value is exchanged via
device registration: on success the received credential set is stamped
with the current time as `token_obtain_time`, persisted, and completion
is signaled; on registration failure nothing is persisted and no
completion is signaled.  When the substring occurs but the parameter is
absent from the query string, a `KeyError` is raised. -/
theorem amazon_c5_login_callback (now : Int) (url : String)
    (resp : Option UserData) :
    (pyFind url authCodeParam ≤ 0 → login_callback now url resp = .ok [])
  ∧ (∀ code rest ud, pyFind url authCodeParam > 0 →
      qsValues (urlQuery url) authCodeParam = code :: rest →
      login_callback now url (some ud)
        = .ok [.registerCall code,
               .userWrite { ud with token_obtain_time := some (.jnum now) },
               .emitLogin])
  ∧ (∀ code rest, pyFind url authCodeParam > 0 →
      qsValues (urlQuery url) authCodeParam = code :: rest →
      login_callback now url none = .ok [.registerCall code])
  ∧ (pyFind url authCodeParam > 0 →
      qsValues (urlQuery url) authCodeParam = [] →
      login_callback now url resp = .error .keyError) := by
  refine ⟨?_, ?_, ?_, ?_⟩
  · intro h
    simp [login_callback, show ¬ pyFind url authCodeParam > 0 by omega]
  · intro code rest ud hfind hq
    simp [login_callback, hfind, hq]
  · intro code rest hfind hq
    simp [login_callback, hfind, hq]
  · intro hfind hq
    cases resp <;> simp [login_callback, hfind, hq]

/-- A redirect URL carrying the authorization-code parameter. -/
def c5good : String :=
  "https://www.amazon.com/?openid.oa2.authorization_code=CODE"

/-- The `response.success` credential set the registration endpoint
returns in the C5 witness scenario. -/
def c5ud : UserData :=
  { bearer := { access_token := .jstr "AT", refresh_token := .jstr "RT",
                expires_in := some (.jnum 3600) },
    token_obtain_time := none,
    device_serial_number := "S",
    other := [] }

/-- Witness for C5 (amended): a successful exchange registers, stamps,
persists and signals. -/
theorem amazon_c5_witness :
    login_callback 9 c5good (some c5ud)
      = .ok [.registerCall "CODE",
             .userWrite { c5ud with token_obtain_time := some (.jnum 9) },
             .emitLogin] :=
  (amazon_c5_login_callback 9 c5good (some c5ud)).2.1 "CODE" [] c5ud
    (by decide) rfl

/-- C7: a `load` call that finds the `is_loading` flag set returns `None`
at once — no page fetch, no file write, no game saved, no state change —
and a `load` call that actually started loading (flag clear,
authenticated) always finishes with the flag clear again, whether the
fetch and mapping succeeded or raised (the exception is converted into a
no-games `None` result). -/
theorem amazon_c7_load_flag (auth : Bool) (now : Int) (w : World) (env : Env)
    (fuel : Nat) :
    load true auth now w env fuel = some ⟨none, true, w, [], []⟩
  ∧ (∀ out, load false true now w env fuel = some out → out.is_loading = false)
  ∧ (∀ err w2 evs, get_library now w env fuel = some (.error err, w2, evs) →
      load false true now w env fuel = some ⟨none, false, w2, evs, []⟩) := by
  refine ⟨by simp [load], ?_, ?_⟩
  · intro out hout
    unfold load at hout
    simp at hout
    rcases hgl : get_library now w env fuel with _ | ⟨res, w2, evs⟩ <;>
      rw [hgl] at hout
    · simp at hout
    · rcases res with err | og
      · simp at hout
        subst hout
        rfl
      · rcases og with _ | ents
        · simp at hout
          subst hout
          rfl
        · simp at hout
          rcases hm : mapGames ents with err | gs <;> rw [hm] at hout <;>
            simp at hout <;> subst hout <;> rfl
  · intro err w2 evs hgl
    simp [load, hgl]

/-- A cached world used by the C7 witness. -/
def c7world : World := { cache := some [], user := c5ud }

/-- Witness for C7: a started load that finishes leaves the flag clear. -/
theorem amazon_c7_witness :
    load false true 0 c7world c4env 1 = some ⟨some [], false, c7world, [], []⟩
  ∧ (⟨some [], false, c7world, [], []⟩ : LoadResult).is_loading = false :=
  ⟨rfl, (amazon_c7_load_flag true 0 c7world c4env 1).2.1
    ⟨some [], false, c7world, [], []⟩ rfl⟩
